import Mathlib

/-!
Verification development for the Shringara checkout backend.

The repository has three express-server variants:
* variant A: `src/server.js` (first document) — routes `/api/orders/create`,
  `/api/orders/verify`;
* variant B: `src/server.js` (second document) — authenticated variant with
  routes `/create-order`, `/verify-payment`, `/auth/google` and a JWT
  middleware;
* variant C: `src/unnamed/part_000` — routes `/create-order`,
  `/verify-payment` without field validation.

All three verify payments by recomputing
`crypto.createHmac("sha256", secret).update(orderId + "|" + paymentId).digest("hex")`.
We embed that computation faithfully: SHA-256 per FIPS 180-4 and HMAC per
FIPS 198-1, over byte lists with `Nat` arithmetic taken mod `2^32`.
-/

set_option maxRecDepth 40000

namespace Shringara

/-! ## SHA-256 (FIPS 180-4), bytes as `Nat` values `< 256`, words as `Nat` values `< 2^32` -/

/-- `2^32`, the modulus for 32-bit word arithmetic. -/
def w32 : Nat := 4294967296

/-- Addition of 32-bit words, wrapping mod `2^32`. -/
def add32 (a b : Nat) : Nat := (a + b) % w32

/-- Bitwise complement of a 32-bit word (xor with `2^32 - 1`). -/
def not32 (a : Nat) : Nat := Nat.xor a 4294967295

/-- Right-rotation of the 32-bit word `a` by `n` places. -/
def rotr32 (n a : Nat) : Nat := a / 2 ^ n + a % 2 ^ n * 2 ^ (32 - n)

/-- `Ch(x,y,z) = (x ∧ y) ⊕ (¬x ∧ z)`. -/
def ch32 (x y z : Nat) : Nat := Nat.xor (Nat.land x y) (Nat.land (not32 x) z)

/-- `Maj(x,y,z) = (x ∧ y) ⊕ (x ∧ z) ⊕ (y ∧ z)`. -/
def maj32 (x y z : Nat) : Nat :=
  Nat.xor (Nat.land x y) (Nat.xor (Nat.land x z) (Nat.land y z))

/-- `Σ₀(x) = ROTR²(x) ⊕ ROTR¹³(x) ⊕ ROTR²²(x)`. -/
def bigSigma0 (x : Nat) : Nat := Nat.xor (rotr32 2 x) (Nat.xor (rotr32 13 x) (rotr32 22 x))

/-- `Σ₁(x) = ROTR⁶(x) ⊕ ROTR¹¹(x) ⊕ ROTR²⁵(x)`. -/
def bigSigma1 (x : Nat) : Nat := Nat.xor (rotr32 6 x) (Nat.xor (rotr32 11 x) (rotr32 25 x))

/-- `σ₀(x) = ROTR⁷(x) ⊕ ROTR¹⁸(x) ⊕ SHR³(x)`. -/
def smallSigma0 (x : Nat) : Nat := Nat.xor (rotr32 7 x) (Nat.xor (rotr32 18 x) (x / 8))

/-- `σ₁(x) = ROTR¹⁷(x) ⊕ ROTR¹⁹(x) ⊕ SHR¹⁰(x)`. -/
def smallSigma1 (x : Nat) : Nat := Nat.xor (rotr32 17 x) (Nat.xor (rotr32 19 x) (x / 1024))

/-- The 64 SHA-256 round constants `K₀ … K₆₃` (FIPS 180-4 §4.2.2), written in
decimal. -/
def sha256K : List Nat :=
  [1116352408, 1899447441, 3049323471, 3921009573, 961987163,
   1508970993, 2453635748, 2870763221, 3624381080, 310598401,
   607225278, 1426881987, 1925078388, 2162078206, 2614888103,
   3248222580, 3835390401, 4022224774, 264347078, 604807628,
   770255983, 1249150122, 1555081692, 1996064986, 2554220882,
   2821834349, 2952996808, 3210313671, 3336571891, 3584528711,
   113926993, 338241895, 666307205, 773529912, 1294757372,
   1396182291, 1695183700, 1986661051, 2177026350, 2456956037,
   2730485921, 2820302411, 3259730800, 3345764771, 3516065817,
   3600352804, 4094571909, 275423344, 430227734, 506948616,
   659060556, 883997877, 958139571, 1322822218, 1537002063,
   1747873779, 1955562222, 2024104815, 2227730452, 2361852424,
   2428436474, 2756734187, 3204031479, 3329325298]

/-- Working state of the compression function: the eight 32-bit words. -/
structure Hash8 where
  a : Nat
  b : Nat
  c : Nat
  d : Nat
  e : Nat
  f : Nat
  g : Nat
  h : Nat
  deriving Repr, DecidableEq

/-- The SHA-256 initial hash value `H⁽⁰⁾` (FIPS 180-4 §5.3.3), in decimal. -/
def sha256H0 : Hash8 :=
  ⟨1779033703, 3144134277, 1013904242, 2773480762,
   1359893119, 2600822924, 528734635, 1541459225⟩

/-- Group a byte list into big-endian 32-bit words, four bytes per word. -/
def bytesToWords : List Nat → List Nat
  | b0 :: b1 :: b2 :: b3 :: rest =>
      (((b0 * 256 + b1) * 256 + b2) * 256 + b3) :: bytesToWords rest
  | _ => []

/-- One step of the message-schedule extension, taking the schedule so far in
reverse order (most recent word first): `σ₁(W[t-2]) + W[t-7] + σ₀(W[t-15]) + W[t-16]`. -/
def schedStep (rws : List Nat) : Nat :=
  add32 (add32 (smallSigma1 (rws.getD 1 0)) (rws.getD 6 0))
        (add32 (smallSigma0 (rws.getD 14 0)) (rws.getD 15 0))

/-- Extend the reversed schedule by `n` further words. -/
def extendSched : Nat → List Nat → List Nat
  | 0, rws => rws
  | n + 1, rws => extendSched n (schedStep rws :: rws)

/-- The full 64-word message schedule of one block, given its 16 input words. -/
def messageSchedule (ws : List Nat) : List Nat :=
  (extendSched 48 ws.reverse).reverse

/-- One compression round; `kw` is `K[t] + W[t]` already reduced mod `2^32`. -/
def sha256Round (s : Hash8) (kw : Nat) : Hash8 :=
  let t1 := add32 s.h (add32 (bigSigma1 s.e) (add32 (ch32 s.e s.f s.g) kw))
  let t2 := add32 (bigSigma0 s.a) (maj32 s.a s.b s.c)
  ⟨add32 t1 t2, s.a, s.b, s.c, add32 s.d t1, s.e, s.f, s.g⟩

/-- Compress one 64-byte block into the running hash value. -/
def compressBlock (s : Hash8) (block : List Nat) : Hash8 :=
  let w := messageSchedule (bytesToWords block)
  let t := (List.zipWith add32 sha256K w).foldl sha256Round s
  ⟨add32 s.a t.a, add32 s.b t.b, add32 s.c t.c, add32 s.d t.d,
   add32 s.e t.e, add32 s.f t.f, add32 s.g t.g, add32 s.h t.h⟩

/-- Big-endian 8-byte encoding of a (64-bit) length value. -/
def be64 (n : Nat) : List Nat :=
  [n / 2 ^ 56 % 256, n / 2 ^ 48 % 256, n / 2 ^ 40 % 256, n / 2 ^ 32 % 256,
   n / 2 ^ 24 % 256, n / 2 ^ 16 % 256, n / 2 ^ 8 % 256, n % 256]

/-- Big-endian 4-byte encoding of a 32-bit word. -/
def be32 (n : Nat) : List Nat :=
  [n / 2 ^ 24 % 256, n / 2 ^ 16 % 256, n / 2 ^ 8 % 256, n % 256]

/-- SHA-256 padding (FIPS 180-4 §5.1.1): append `0x80`, then zeros, then the
64-bit big-endian bit length, reaching a multiple of 64 bytes. -/
def padBytes (msg : List Nat) : List Nat :=
  msg ++ 0x80 :: List.replicate ((120 - (msg.length + 1) % 64) % 64) 0 ++ be64 (8 * msg.length)

/-- Split a byte list into successive 64-byte blocks; `fuel` bounds the number
of blocks and is instantiated with the list length, which always suffices. -/
def chunks64Fuel : Nat → List Nat → List (List Nat)
  | 0, _ => []
  | _, [] => []
  | fuel + 1, b :: bs => ((b :: bs).take 64) :: chunks64Fuel fuel ((b :: bs).drop 64)

/-- Split a byte list into successive 64-byte blocks. -/
def chunks64 (bs : List Nat) : List (List Nat) := chunks64Fuel bs.length bs

/-- SHA-256 of a byte list: pad, compress each block, serialize the state. -/
def sha256Bytes (msg : List Nat) : List Nat :=
  let s := (chunks64 (padBytes msg)).foldl compressBlock sha256H0
  be32 s.a ++ be32 s.b ++ be32 s.c ++ be32 s.d ++ be32 s.e ++ be32 s.f ++ be32 s.g ++ be32 s.h

/-! ## HMAC-SHA256 (FIPS 198-1) -/

/-- HMAC-SHA256 over byte lists: hash an over-long key, zero-pad to the 64-byte
block size, then `H((K₀ ⊕ opad) ∥ H((K₀ ⊕ ipad) ∥ msg))`. -/
def hmacSha256Bytes (key msg : List Nat) : List Nat :=
  let k0 := if 64 < key.length then sha256Bytes key else key
  let kb := k0 ++ List.replicate (64 - k0.length) 0
  sha256Bytes ((kb.map fun b => Nat.xor b 0x5c) ++
    sha256Bytes ((kb.map fun b => Nat.xor b 0x36) ++ msg))

/-! ## Strings: UTF-8 encoding and hex digests -/

/-- UTF-8 encoding of a single code point. -/
def utf8Char (n : Nat) : List Nat :=
  if n < 0x80 then [n]
  else if n < 0x800 then [0xc0 + n / 64, 0x80 + n % 64]
  else if n < 0x10000 then [0xe0 + n / 4096, 0x80 + n / 64 % 64, 0x80 + n % 64]
  else [0xf0 + n / 262144, 0x80 + n / 4096 % 64, 0x80 + n / 64 % 64, 0x80 + n % 64]

/-- UTF-8 byte encoding of a string, as Node's `Buffer.from(s, "utf8")`. -/
def utf8 (s : String) : List Nat := (s.data.map fun c => utf8Char c.toNat).flatten

/-- Lowercase hexadecimal digit for a value `< 16`. -/
def hexDigit (n : Nat) : Char := if n < 10 then Char.ofNat (48 + n) else Char.ofNat (87 + n)

/-- Two-digit lowercase hexadecimal rendering of one byte. -/
def hexByte (b : Nat) : List Char := [hexDigit (b / 16), hexDigit (b % 16)]

/-- Lowercase hexadecimal rendering of a byte list. -/
def hexOfBytes (bs : List Nat) : String := String.mk (bs.map hexByte).flatten

/-- Model of Node `crypto.createHmac("sha256", key).update(msg).digest("hex")`. -/
def hmacSha256Hex (key msg : String) : String :=
  hexOfBytes (hmacSha256Bytes (utf8 key) (utf8 msg))

/-! ## JavaScript conventions

Request-body fields are modelled as `Option` values (`none` = the field is
absent, i.e. `undefined`).  JavaScript's truthiness and coercion rules that the
handlers rely on:
* `!x` on a string is true when `x` is `undefined` **or** the empty string;
* `undefined` interpolated into string concatenation becomes `"undefined"`;
* `x || d` yields `d` when `x` is falsy.
-/

/-- JS truthiness test for an optional string: `undefined` and `""` are falsy. -/
def jsFalsy : Option String → Bool
  | none => true
  | some s => s = ""

/-- JS string coercion: `undefined + "..."` concatenates as `"undefined"`. -/
def jsString : Option String → String
  | none => "undefined"
  | some s => s

/-- JS `x || d` on an optional string: falsy `x` yields the default `d`. -/
def jsOrElse (x : Option String) (d : String) : String :=
  match x with
  | none => d
  | some s => if s = "" then d else s

/-! ## The recomputed payment signature

All three variants recompute the expected Razorpay signature as
`crypto.createHmac("sha256", process.env.RAZORPAY_KEY_SECRET)
   .update(orderId + "|" + paymentId).digest("hex")`. -/

/-- The expected payment signature recomputed by every verify handler. -/
def expectedSignature (secret orderId paymentId : String) : String :=
  hmacSha256Hex secret (orderId ++ "|" ++ paymentId)

/-! ## Order records

One structure per mongoose schema.  Untyped `Array` / `Object` fields are
modelled as string-keyed association lists. -/

/-- An untyped JS object, as stored in `products` / `customer` fields. -/
abbrev JsObj := List (String × String)

/-- Order document of variant A (`src/models/order.js`): fields
`razorpay_order_id`, `razorpay_payment_id`, `razorpay_signature`, `products`,
`customer`, `amount`, `status` (default `"Pending"`), plus the
`{ timestamps: true }` pair `createdAt` / `updatedAt`. -/
structure OrderA where
  razorpay_order_id : Option String
  razorpay_payment_id : Option String
  razorpay_signature : Option String
  products : Option (List JsObj)
  customer : Option JsObj
  amount : Option ℚ
  status : String
  createdAt : Nat
  updatedAt : Nat
  deriving Repr, DecidableEq

/-- Order document of variant B (`server.js` second document, lines 183–194):
`orderId`, `paymentId`, `amount`, `currency`, `products`, `customer`,
`userId`, `status` (default `"Pending"`), `createdAt`, `updatedAt`. -/
structure OrderB where
  orderId : Option String
  paymentId : Option String
  amount : Option ℚ
  currency : Option String
  products : Option (List JsObj)
  customer : Option JsObj
  userId : Option String
  status : String
  createdAt : Nat
  updatedAt : Option Nat
  deriving Repr, DecidableEq

/-- Order document of variant C (`src/unnamed/part_000`, lines 21–30):
`orderId`, `paymentId`, `amount`, `currency`, `products`, `customer`,
`status` (default `"Pending"`), `createdAt`.  There is no update timestamp. -/
structure OrderC where
  orderId : Option String
  paymentId : Option String
  amount : Option ℚ
  currency : Option String
  products : Option (List JsObj)
  customer : Option JsObj
  status : String
  createdAt : Nat
  deriving Repr, DecidableEq

/-- `Model.findOneAndUpdate(filter, update)`: rewrite the first document
matching the filter, leave the rest unchanged; a no-op when nothing matches. -/
def updateFirst (p : α → Bool) (f : α → α) : List α → List α
  | [] => []
  | x :: xs => if p x then f x :: xs else x :: updateFirst p f xs

/-! ## Verify-payment handlers -/

/-- Request body of a verify call; each field may be absent. -/
structure VerifyReq where
  orderId : Option String
  paymentId : Option String
  signature : Option String
  deriving Repr, DecidableEq

/-- JSON response of a verify call: HTTP status, the `success` flag, and the
optional `message` field. -/
structure VerifyResp where
  status : Nat
  success : Bool
  message : Option String
  deriving Repr, DecidableEq

/-- Variant A `POST /api/orders/verify` (`server.js` lines 93–113): no field
validation; recomputes the signature over the (possibly `"undefined"`-coerced)
fields; `sign !== razorpay_signature` → respond `{success:false,
message:"Signature mismatch"}` with HTTP 200 and **no** database update;
otherwise set `razorpay_payment_id`, `razorpay_signature`, `status = "Paid"`
on the first document with that `razorpay_order_id` and respond
`{success:true}`.  (The handler also writes a `paidAt` field that the strict
schema drops; the schema's `timestamps: true` maintains `updatedAt` on every
`findOneAndUpdate`, modelled as setting it to `now`.) -/
def verifyPaymentA (secret : String) (now : Nat) (db : List OrderA) (req : VerifyReq) :
    List OrderA × VerifyResp :=
  let sign := expectedSignature secret (jsString req.orderId) (jsString req.paymentId)
  match req.signature with
  | some s =>
      if sign = s then
        (updateFirst (fun r => r.razorpay_order_id = req.orderId)
          (fun r => { r with razorpay_payment_id := req.paymentId,
                             razorpay_signature := req.signature,
                             status := "Paid", updatedAt := now }) db,
         ⟨200, true, none⟩)
      else (db, ⟨200, false, some "Signature mismatch"⟩)
  | none => (db, ⟨200, false, some "Signature mismatch"⟩)

/-- Variant B `POST /verify-payment` (`server.js` lines 283–305): reject with
400 when any of the three fields is falsy; on signature match set `paymentId`,
`status = "Paid"`, `updatedAt` on the first document with that `orderId` and
respond `{success:true, …}`; on mismatch set `status = "Failed"`, `updatedAt`
and respond 400 `{success:false, message:"Invalid signature"}`. -/
def verifyPaymentB (secret : String) (now : Nat) (db : List OrderB) (req : VerifyReq) :
    List OrderB × VerifyResp :=
  if jsFalsy req.orderId || jsFalsy req.paymentId || jsFalsy req.signature then
    (db, ⟨400, false, some "Missing payment verification fields"⟩)
  else
    let gen := expectedSignature secret (jsString req.orderId) (jsString req.paymentId)
    if some gen = req.signature then
      (updateFirst (fun r => r.orderId = req.orderId)
        (fun r => { r with paymentId := req.paymentId, status := "Paid",
                           updatedAt := some now }) db,
       ⟨200, true, some "Payment verified successfully"⟩)
    else
      (updateFirst (fun r => r.orderId = req.orderId)
        (fun r => { r with status := "Failed", updatedAt := some now }) db,
       ⟨400, false, some "Invalid signature"⟩)

/-- Variant C `POST /verify-payment` (`part_000` lines 73–103): no field
validation; on signature match set `paymentId`, `status = "Paid"` on the first
document with that `orderId` and respond `{success:true, …}`; on mismatch set
`status = "Failed"` (the schema has no update timestamp) and respond 400
`{success:false, message:"Invalid signature"}`. -/
def verifyPaymentC (secret : String) (db : List OrderC) (req : VerifyReq) :
    List OrderC × VerifyResp :=
  let gen := expectedSignature secret (jsString req.orderId) (jsString req.paymentId)
  match req.signature with
  | some s =>
      if gen = s then
        (updateFirst (fun r => r.orderId = req.orderId)
          (fun r => { r with paymentId := req.paymentId, status := "Paid" }) db,
         ⟨200, true, some "Payment verified successfully"⟩)
      else
        (updateFirst (fun r => r.orderId = req.orderId)
          (fun r => { r with status := "Failed" }) db,
         ⟨400, false, some "Invalid signature"⟩)
  | none =>
      (updateFirst (fun r => r.orderId = req.orderId)
        (fun r => { r with status := "Failed" }) db,
       ⟨400, false, some "Invalid signature"⟩)

/-! ## Create-order handlers -/

/-- JS truthiness for an optional number: `undefined`, `0` (and `NaN`,
modelled as `none`) are falsy. -/
def jsFalsyNum : Option ℚ → Bool
  | none => true
  | some q => q = 0

/-- JS `Math.round`: round to the nearest integer, halves toward `+∞`. -/
def jsRound (q : ℚ) : ℚ := ((⌊q + 1 / 2⌋ : ℤ) : ℚ)

/-- The options object passed to `razorpay.orders.create`. -/
structure GwOptions where
  amount : Option ℚ
  currency : Option String
  receipt : String
  deriving Repr, DecidableEq

/-- The gateway's order object returned on success. -/
structure GwOrder where
  id : String
  amount : Option ℚ
  currency : Option String
  deriving Repr, DecidableEq

/-- A gateway failure as surfaced by the SDK: an optional structured
`err.error.description` plus the JS `err.message`. -/
structure GwErr where
  errorDescription : Option String
  message : String
  deriving Repr, DecidableEq

/-- `err.error ? err.error.description : err.message` (server.js line 276). -/
def gwErrMessage (e : GwErr) : String :=
  match e.errorDescription with
  | some d => d
  | none => e.message

/-- Trace of one create-order invocation: the gateway call if one was
attempted, the persisted document if one was written, and the response. -/
structure CreateTrace (Doc Resp : Type) where
  gatewayCall : Option GwOptions
  persisted : Option Doc
  response : Resp
  deriving Repr, DecidableEq

/-- The `summary` object of a variant-A create request. -/
structure SummaryA where
  subtotal : ℚ
  shipping : ℚ
  grand : ℚ
  deriving Repr, DecidableEq

/-- Request body of variant A `POST /api/orders/create`:
`{cart, summary, customer}`. -/
structure CreateReqA where
  cart : Option (List JsObj)
  summary : Option SummaryA
  customer : Option JsObj
  deriving Repr, DecidableEq

/-- Request body of variants B and C `POST /create-order`:
`{amount, currency, products, customer}`. -/
structure CreateReq where
  amount : Option ℚ
  currency : Option String
  products : Option (List JsObj)
  customer : Option JsObj
  deriving Repr, DecidableEq

/-- Response body of variant A's create handler. -/
inductive CreateBodyA where
  | ok (key : String) (orderId : String) (amount : ℚ) (currency : String) (dbId : String)
  | err (error : String)
  deriving Repr, DecidableEq

/-- Response of variant A's create handler: HTTP status plus JSON body. -/
structure CreateRespA where
  status : Nat
  body : CreateBodyA
  deriving Repr, DecidableEq

/-- Response body of variant B's create handler; the `err` case carries the
`error` field and the optional `message` field of the JSON body. -/
inductive CreateBodyB where
  | ok (id : String) (amount : Option ℚ) (currency : Option String) (key : String)
  | err (error : String) (message : Option String)
  deriving Repr, DecidableEq

/-- Response of variant B's create handler. -/
structure CreateRespB where
  status : Nat
  body : CreateBodyB
  deriving Repr, DecidableEq

/-- Response body of variant C's create handler: either the gateway order
serialized as JSON (`res.json(order)`) or a **plain-text** body
(`res.status(500).send("Error creating order")`). -/
inductive CreateBodyC where
  | json (order : GwOrder)
  | text (message : String)
  deriving Repr, DecidableEq

/-- Whether a variant-C response body is JSON. -/
def CreateBodyC.isJson : CreateBodyC → Bool
  | .json _ => true
  | .text _ => false

/-- Response of variant C's create handler. -/
structure CreateRespC where
  status : Nat
  body : CreateBodyC
  deriving Repr, DecidableEq

/-- Variant A `POST /api/orders/create` (server.js lines 46–90).  Validation:
`!Array.isArray(cart) || !summary || !customer` → 400 `{error:"Invalid
payload"}` (non-array truthy `cart` values are outside this model).  Otherwise
the gateway is called with `Math.round(Number(summary.grand) * 100)` paise,
hard-coded currency `"INR"` and receipt `"ekta_" + Date.now()`.  On gateway
success a document is created; the strict schema of `src/models/order.js`
keeps only the fields it declares (`razorpay_order_id`, `customer`, `status`),
silently dropping `receipt`, `currency`, `subtotal`, `shipping`, `grandTotal`
and the mapped `items`, so the item mapping is not modelled.  The response
carries the rupee amount `Number(summary.grand)`, not the paise amount.
Gateway failure → 500 `{error:"Unable to create order"}`, nothing persisted. -/
def createOrderA (keyId dbId : String) (now : Nat)
    (gw : GwOptions → Except GwErr GwOrder) (req : CreateReqA) :
    CreateTrace OrderA CreateRespA :=
  match req.cart, req.summary, req.customer with
  | some _, some sm, some cust =>
      let options : GwOptions :=
        { amount := some (jsRound (sm.grand * 100)), currency := some "INR",
          receipt := "ekta_" ++ toString now }
      match gw options with
      | .ok order =>
          { gatewayCall := some options,
            persisted := some { razorpay_order_id := some order.id,
                                razorpay_payment_id := none, razorpay_signature := none,
                                products := none, customer := some cust, amount := none,
                                status := "Created", createdAt := now, updatedAt := now },
            response := ⟨200, .ok keyId order.id sm.grand "INR" dbId⟩ }
      | .error _ =>
          { gatewayCall := some options, persisted := none,
            response := ⟨500, .err "Unable to create order"⟩ }
  | _, _, _ =>
      { gatewayCall := none, persisted := none,
        response := ⟨400, .err "Invalid payload"⟩ }

/-- Variant B `POST /create-order` (server.js lines 248–278), reached behind
`authenticateToken`.  Validation: `!amount || !products || !customer` → 400
`{error:"Missing required fields"}` before any gateway call.  Otherwise the
gateway is called with `Math.round(amount * 100)`, `currency || "INR"` and
receipt `"receipt_" + Date.now()`; on success the order document is persisted
with the gateway-confirmed amount/currency and `status:"Created"`, and the
response echoes them with the public key id.  Gateway failure → 500 with
`message: err.error ? err.error.description : err.message`. -/
def createOrderB (keyId userId : String) (now : Nat)
    (gw : GwOptions → Except GwErr GwOrder) (req : CreateReq) :
    CreateTrace OrderB CreateRespB :=
  match req.amount, req.products, req.customer with
  | some a, some ps, some cust =>
      if a = 0 then
        { gatewayCall := none, persisted := none,
          response := ⟨400, .err "Missing required fields" none⟩ }
      else
        let options : GwOptions :=
          { amount := some (jsRound (a * 100)),
            currency := some (jsOrElse req.currency "INR"),
            receipt := "receipt_" ++ toString now }
        match gw options with
        | .ok order =>
            { gatewayCall := some options,
              persisted := some { orderId := some order.id, paymentId := none,
                                  amount := order.amount, currency := order.currency,
                                  products := some ps, customer := some cust,
                                  userId := some userId, status := "Created",
                                  createdAt := now, updatedAt := none },
              response := ⟨200, .ok order.id order.amount order.currency keyId⟩ }
        | .error e =>
            { gatewayCall := some options, persisted := none,
              response := ⟨500, .err "Error creating order" (some (gwErrMessage e))⟩ }
  | _, _, _ =>
      { gatewayCall := none, persisted := none,
        response := ⟨400, .err "Missing required fields" none⟩ }

/-- Variant C `POST /create-order` (`part_000` lines 41–70).  **No validation**:
the gateway is always called, with `amount * 100` — no rounding (an absent
amount would make this `NaN`, modelled as `none`) — and the request currency
passed through with **no** `"INR"` default.  On gateway success the document is
persisted with `status:"Created"` and the raw gateway order object is returned
as JSON; on failure the handler answers `res.status(500).send(...)`, a
plain-text body. -/
def createOrderC (now : Nat) (gw : GwOptions → Except GwErr GwOrder)
    (req : CreateReq) : CreateTrace OrderC CreateRespC :=
  let options : GwOptions :=
    { amount := req.amount.map fun a => a * 100,
      currency := req.currency,
      receipt := "receipt_" ++ toString now }
  match gw options with
  | .ok order =>
      { gatewayCall := some options,
        persisted := some { orderId := some order.id, paymentId := none,
                            amount := order.amount, currency := order.currency,
                            products := req.products, customer := req.customer,
                            status := "Created", createdAt := now },
        response := ⟨200, .json order⟩ }
  | .error _ =>
      { gatewayCall := some options, persisted := none,
        response := ⟨500, .text "Error creating order"⟩ }

/-! ## Session tokens and Google authentication (variant B) -/

/-- The claims object signed into a session token:
`{ userId: user._id, email: user.email }`. -/
structure JwtPayload where
  userId : String
  email : String
  deriving Repr, DecidableEq

/-- Modelled from the external `jsonwebtoken` library: a signed token records
its payload, the signing secret and the expiry option; `jwt.verify` succeeds
exactly when the verifying secret equals the signing one. -/
structure Jwt where
  payload : JwtPayload
  signedWith : String
  expiresIn : String
  deriving Repr, DecidableEq

/-- `jwt.sign(payload, secret, { expiresIn })`. -/
def jwtSign (p : JwtPayload) (secret expiry : String) : Jwt := ⟨p, secret, expiry⟩

/-- `jwt.verify(token, secret, cb)`: the decoded payload, or `none` on error. -/
def jwtVerify (t : Jwt) (secret : String) : Option JwtPayload :=
  if t.signedWith = secret then some t.payload else none

/-- `const JWT_SECRET = process.env.JWT_SECRET || "your-jwt-secret-key"`
(server.js line 201); JS `||` also replaces an empty-string value. -/
def JWT_SECRET (env : Option String) : String := jsOrElse env "your-jwt-secret-key"

/-- User document (server.js lines 169–178): `googleId` and `email` unique,
profile fields, `createdAt`, `lastLogin`; `id` models the store-assigned
`_id`. -/
structure UserRec where
  id : String
  googleId : String
  email : String
  name : Option String
  picture : Option String
  createdAt : Nat
  lastLogin : Option Nat
  deriving Repr, DecidableEq

/-- `generateToken` (server.js lines 203–209): sign `{userId, email}` with
`JWT_SECRET`, expiry `"7d"`. -/
def generateToken (env : Option String) (user : UserRec) : Jwt :=
  jwtSign ⟨user.id, user.email⟩ (JWT_SECRET env) "7d"

/-- Outcome of the `authenticateToken` middleware. -/
inductive AuthCheck where
  | reject (status : Nat) (message : String)
  | allow (user : JwtPayload)
  deriving Repr, DecidableEq

/-- `authenticateToken` (server.js lines 214–229): 401 when no bearer token is
present, 403 when `jwt.verify` fails against `JWT_SECRET`, otherwise attach
the decoded payload and continue.  The Authorization header is modelled as an
optional `Jwt` (`none` = missing or malformed header). -/
def authenticateToken (env : Option String) (token : Option Jwt) : AuthCheck :=
  match token with
  | none => .reject 401 "Access token required"
  | some t =>
      match jwtVerify t (JWT_SECRET env) with
      | none => .reject 403 "Invalid or expired token"
      | some u => .allow u

/-- `Model.findOne(filter)`: the first document matching the filter. -/
def findFirst (p : α → Bool) : List α → Option α
  | [] => none
  | x :: xs => if p x then some x else findFirst p xs

/-- The verified Google id-token payload: subject id, email, name, picture. -/
structure GooglePayload where
  sub : String
  email : String
  name : Option String
  picture : Option String
  deriving Repr, DecidableEq

/-- The public-safe user profile returned by `/auth/google`:
`{ id, name, email, picture }` — neither the Google subject id nor the
signing secret appears among its fields. -/
structure PublicUser where
  id : String
  name : Option String
  email : String
  picture : Option String
  deriving Repr, DecidableEq

/-- Success response of `/auth/google`: `{success, token, user}`. -/
structure AuthResp where
  success : Bool
  token : Jwt
  user : PublicUser
  deriving Repr, DecidableEq

/-- `POST /auth/google` (server.js lines 318–361), after the external
`verifyIdToken` call produced the `payload`.  Look up a user by `googleId`;
absent → build a fresh document (store-assigned id `newId`, `createdAt` and
`lastLogin` set to now) and `save()` inserts it; present → only `lastLogin`
is updated.  Then sign a session token for the saved user and answer
`{success:true, token, user:{id, name, email, picture}}`. -/
def authGoogle (env : Option String) (now : Nat) (newId : String)
    (db : List UserRec) (payload : GooglePayload) : List UserRec × AuthResp :=
  match findFirst (fun u => u.googleId = payload.sub) db with
  | none =>
      let u : UserRec :=
        { id := newId, googleId := payload.sub, email := payload.email,
          name := payload.name, picture := payload.picture,
          createdAt := now, lastLogin := some now }
      (db ++ [u],
       { success := true, token := generateToken env u,
         user := ⟨u.id, u.name, u.email, u.picture⟩ })
  | some u0 =>
      let u : UserRec := { u0 with lastLogin := some now }
      (updateFirst (fun x => x.googleId = payload.sub)
         (fun x => { x with lastLogin := some now }) db,
       { success := true, token := generateToken env u,
         user := ⟨u.id, u.name, u.email, u.picture⟩ })

/-! ## Concrete sample data for witnesses and counterexamples -/

/-- A gateway stub that accepts every order. -/
def gwOk : GwOptions → Except GwErr GwOrder :=
  fun o => .ok { id := "order_ABC", amount := o.amount, currency := o.currency }

/-- A gateway stub that fails every order with a connection error. -/
def gwFail : GwOptions → Except GwErr GwOrder :=
  fun _ => .error { errorDescription := none, message := "connect ECONNREFUSED 127.0.0.1:443" }

/-- A stored user for the re-login scenarios. -/
def sampleUser : UserRec :=
  { id := "64a1", googleId := "g-sub-1", email := "asha@example.com",
    name := some "Asha", picture := some "pic.png", createdAt := 1, lastLogin := some 1 }

/-- The signature of the spec's scenario: hex
`HMAC-SHA256("s3cr3t", "order_ABC|pay_XYZ")`. -/
def sigABC : String := "351e840e98af7d1b6898df3a18cbf24e69b2fb0156408d1d5236ce8399596eb4"

/-- A stored variant-A order awaiting payment. -/
def sampleOrderA : OrderA :=
  { razorpay_order_id := some "order_ABC", razorpay_payment_id := none,
    razorpay_signature := none, products := some [[("name", "saree")]],
    customer := some [("name", "Asha"), ("email", "asha@example.com")],
    amount := some 1999, status := "Created", createdAt := 1, updatedAt := 1 }

/-- A stored variant-B order awaiting payment. -/
def sampleOrderB : OrderB :=
  { orderId := some "order_ABC", paymentId := none, amount := some 49999,
    currency := some "INR", products := some [[("name", "saree")]],
    customer := some [("name", "Asha"), ("email", "asha@example.com")],
    userId := some "u1", status := "Created", createdAt := 1, updatedAt := none }

/-- A variant-B order already marked `"Paid"`. -/
def paidOrderB : OrderB := { sampleOrderB with status := "Paid" }

/-- A variant-B order already marked `"Failed"`. -/
def failedOrderB : OrderB := { sampleOrderB with status := "Failed" }

/-- A stored variant-C order awaiting payment. -/
def sampleOrderC : OrderC :=
  { orderId := some "order_ABC", paymentId := none, amount := some 49999,
    currency := some "INR", products := some [[("name", "saree")]],
    customer := some [("name", "Asha")], status := "Created", createdAt := 1 }

/-! ## Sanity checks of the crypto embedding -/

/-- FIPS 180-4 test vector: SHA-256 of the empty message. -/
example : hexOfBytes (sha256Bytes []) =
    "e3b0c44298fc1c149afbf4c8996fb92427ae41e4649b934ca495991b7852b855" := by rfl

/-- FIPS 180-4 test vector: SHA-256 of `"abc"`. -/
example : hexOfBytes (sha256Bytes (utf8 "abc")) =
    "ba7816bf8f01cfea414140de5dae2223b00361a396177a9cb410ff61f20015ad" := by rfl

/-- Known HMAC-SHA256 test vector. -/
example : hmacSha256Hex "key" "The quick brown fox jumps over the lazy dog" =
    "f7bc83f430538424b13298e6aa6fb143ef4d59a14946175997479dbc2d1a3cd8" := by rfl

/-- The spec's scenario: `orderId="order_ABC"`, `paymentId="pay_XYZ"`,
`secret="s3cr3t"` produce exactly `sigABC`. -/
example : expectedSignature "s3cr3t" "order_ABC" "pay_XYZ" = sigABC := by rfl

/-! ## Generic lemmas about `updateFirst` -/

/-- `updateFirst` rewrites exactly the first matching element. -/
theorem updateFirst_split (p : α → Bool) (f : α → α) (pre post : List α) (x : α)
    (hpre : ∀ y ∈ pre, p y = false) (hx : p x = true) :
    updateFirst p f (pre ++ x :: post) = pre ++ f x :: post := by
  induction pre with
  | nil => simp [updateFirst, hx]
  | cons a l ih =>
      have ha : p a = false := hpre a (List.mem_cons_self a l)
      simp only [List.cons_append, updateFirst, ha, Bool.false_eq_true, if_false]
      exact congrArg (a :: ·) (ih fun y hy => hpre y (List.mem_cons_of_mem a hy))

/-- `updateFirst` is the identity when nothing matches. -/
theorem updateFirst_nomatch (p : α → Bool) (f : α → α) (l : List α)
    (hl : ∀ y ∈ l, p y = false) :
    updateFirst p f l = l := by
  induction l with
  | nil => rfl
  | cons a l ih =>
      have ha : p a = false := hl a (List.mem_cons_self a l)
      simp only [updateFirst, ha, Bool.false_eq_true, if_false]
      exact congrArg (a :: ·) (ih fun y hy => hl y (List.mem_cons_of_mem a hy))

/-! ## Reduction lemmas for the verify handlers -/

/-- Reduction of variant B's `/verify-payment` on a request whose three fields
are present and non-empty. -/
theorem verifyPaymentB_eq (secret : String) (now : Nat) (db : List OrderB) (o p s : String)
    (ho : o ≠ "") (hp : p ≠ "") (hs : s ≠ "") :
    verifyPaymentB secret now db ⟨some o, some p, some s⟩ =
      if expectedSignature secret o p = s then
        (updateFirst (fun r => r.orderId = some o)
          (fun r => { r with paymentId := some p, status := "Paid",
                             updatedAt := some now }) db,
         ⟨200, true, some "Payment verified successfully"⟩)
      else
        (updateFirst (fun r => r.orderId = some o)
          (fun r => { r with status := "Failed", updatedAt := some now }) db,
         ⟨400, false, some "Invalid signature"⟩) := by
  unfold verifyPaymentB
  simp [jsFalsy, jsString, ho, hp, hs]

/-- Reduction of variant A's `/api/orders/verify` on a request whose three
fields are present (no validation is performed by that handler). -/
theorem verifyPaymentA_eq (secret : String) (now : Nat) (db : List OrderA) (o p s : String) :
    verifyPaymentA secret now db ⟨some o, some p, some s⟩ =
      if expectedSignature secret o p = s then
        (updateFirst (fun r => r.razorpay_order_id = some o)
          (fun r => { r with razorpay_payment_id := some p,
                             razorpay_signature := some s,
                             status := "Paid", updatedAt := now }) db,
         ⟨200, true, none⟩)
      else (db, ⟨200, false, some "Signature mismatch"⟩) := by
  unfold verifyPaymentA
  simp [jsString]

/-- Reduction of variant C's `/verify-payment` on a request whose three fields
are present (no validation is performed by that handler). -/
theorem verifyPaymentC_eq (secret : String) (db : List OrderC) (o p s : String) :
    verifyPaymentC secret db ⟨some o, some p, some s⟩ =
      if expectedSignature secret o p = s then
        (updateFirst (fun r => r.orderId = some o)
          (fun r => { r with paymentId := some p, status := "Paid" }) db,
         ⟨200, true, some "Payment verified successfully"⟩)
      else
        (updateFirst (fun r => r.orderId = some o)
          (fun r => { r with status := "Failed" }) db,
         ⟨400, false, some "Invalid signature"⟩) := by
  unfold verifyPaymentC
  simp [jsString]

/-! ## Claim C1 -/

/-- **C1.** For every pair of strings `(orderId, paymentId)` and shared secret
`K`, the expected payment signature computed by the verify-payment handler
equals the hex encoding of HMAC-SHA256 with key `K` over the string
`orderId ++ "|" ++ paymentId`, and the computation is deterministic: the same
`(orderId, paymentId, K)` always yields the same signature. -/
theorem C1_expected_signature_is_hmac_and_deterministic (orderId paymentId K : String) :
    expectedSignature K orderId paymentId =
      hexOfBytes (hmacSha256Bytes (utf8 K) (utf8 (orderId ++ "|" ++ paymentId))) ∧
    ∀ o p k : String, o = orderId → p = paymentId → k = K →
      expectedSignature k o p = expectedSignature K orderId paymentId := by
  refine ⟨rfl, ?_⟩
  rintro o p k rfl rfl rfl
  rfl

/-- Witness for C1 at the spec's scenario inputs. -/
theorem C1_witness :
    expectedSignature "s3cr3t" "order_ABC" "pay_XYZ" =
      hexOfBytes (hmacSha256Bytes (utf8 "s3cr3t") (utf8 ("order_ABC" ++ "|" ++ "pay_XYZ"))) ∧
    expectedSignature "s3cr3t" "order_ABC" "pay_XYZ" =
      expectedSignature "s3cr3t" "order_ABC" "pay_XYZ" :=
  ⟨(C1_expected_signature_is_hmac_and_deterministic "order_ABC" "pay_XYZ" "s3cr3t").1,
   (C1_expected_signature_is_hmac_and_deterministic "order_ABC" "pay_XYZ" "s3cr3t").2
     "order_ABC" "pay_XYZ" "s3cr3t" rfl rfl rfl⟩

/-! ## Claim C2 -/

/-- **C2.** For every verify-payment request whose supplied signature equals
the recomputed signature, the handler updates the Order Record matched by the
gateway order identifier — setting the payment identifier, status `"Paid"`,
and the update timestamp — and responds with `success:true`.  Stated for the
authenticated `/verify-payment` handler (variant B) and for the
`/api/orders/verify` handler (variant A, where the payment linkage fields are
`razorpay_payment_id` / `razorpay_signature` and `updatedAt` is maintained by
the schema's `timestamps` option). -/
theorem C2_verify_match_marks_paid :
    (∀ (secret : String) (now : Nat) (o p s : String) (pre post : List OrderB) (ord : OrderB),
      (∀ r ∈ pre, r.orderId ≠ some o) → ord.orderId = some o →
      o ≠ "" → p ≠ "" → s ≠ "" →
      expectedSignature secret o p = s →
      verifyPaymentB secret now (pre ++ ord :: post) ⟨some o, some p, some s⟩ =
        (pre ++ { ord with paymentId := some p, status := "Paid",
                           updatedAt := some now } :: post,
         ⟨200, true, some "Payment verified successfully"⟩)) ∧
    (∀ (secret : String) (now : Nat) (o p s : String) (pre post : List OrderA) (ord : OrderA),
      (∀ r ∈ pre, r.razorpay_order_id ≠ some o) → ord.razorpay_order_id = some o →
      expectedSignature secret o p = s →
      verifyPaymentA secret now (pre ++ ord :: post) ⟨some o, some p, some s⟩ =
        (pre ++ { ord with razorpay_payment_id := some p, razorpay_signature := some s,
                           status := "Paid", updatedAt := now } :: post,
         ⟨200, true, none⟩)) := by
  constructor
  · intro secret now o p s pre post ord hpre hord ho hp hs hsig
    rw [verifyPaymentB_eq secret now _ o p s ho hp hs, if_pos hsig]
    simp only [Prod.mk.injEq, and_true]
    exact updateFirst_split _ _ pre post ord
      (fun y hy => by simp [hpre y hy]) (by simp [hord])
  · intro secret now o p s pre post ord hpre hord hsig
    rw [verifyPaymentA_eq secret now _ o p s, if_pos hsig]
    simp only [Prod.mk.injEq, and_true]
    exact updateFirst_split _ _ pre post ord
      (fun y hy => by simp [hpre y hy]) (by simp [hord])

/-- Witness for C2: the spec's scenario run against variant B with the genuine
signature `sigABC`; the stored order flips to `"Paid"`. -/
theorem C2_witness :
    verifyPaymentB "s3cr3t" 7 [sampleOrderB] ⟨some "order_ABC", some "pay_XYZ", some sigABC⟩ =
      ([{ sampleOrderB with
            paymentId := some "pay_XYZ", status := "Paid", updatedAt := some 7 }],
       ⟨200, true, some "Payment verified successfully"⟩) :=
  C2_verify_match_marks_paid.1 "s3cr3t" 7 "order_ABC" "pay_XYZ" sigABC [] [] sampleOrderB
    (by simp) rfl (by decide) (by decide) (by decide) (by rfl)

/-! ## Claim C3 -/

/-- **C3 counterexample.** The claim is false for the `/api/orders/verify`
handler (variant A, `server.js` line 101): on a signature mismatch it performs
**no** database update and responds `{success:false, message:"Signature
mismatch"}` with HTTP status **200**, not 400, and no `"Failed"` status is
written. -/
theorem C3_counterexample :
    verifyPaymentA "s3cr3t" 7 [sampleOrderA]
        ⟨some "order_ABC", some "pay_XYZ", some "deadbeef"⟩ =
      ([sampleOrderA], ⟨200, false, some "Signature mismatch"⟩) ∧
    sampleOrderA.status = "Created" ∧ (200 : Nat) ≠ 400 := by
  refine ⟨by rfl, rfl, by decide⟩

/-- **C3 amended.** For every verify-payment request whose supplied signature
differs from the recomputed one: the authenticated `/verify-payment` handler
(variant B) sets the matched record's status to `"Failed"` with the update
timestamp and responds 400 `success:false`; the `part_000` `/verify-payment`
handler (variant C) likewise sets `"Failed"` (its schema has no update
timestamp) and responds 400 `success:false`; whereas `/api/orders/verify`
(variant A, refuted above) leaves the store untouched and responds 200. -/
theorem C3_amended_verify_mismatch_marks_failed :
    (∀ (secret : String) (now : Nat) (o p s : String) (pre post : List OrderB) (ord : OrderB),
      (∀ r ∈ pre, r.orderId ≠ some o) → ord.orderId = some o →
      o ≠ "" → p ≠ "" → s ≠ "" →
      expectedSignature secret o p ≠ s →
      verifyPaymentB secret now (pre ++ ord :: post) ⟨some o, some p, some s⟩ =
        (pre ++ { ord with status := "Failed", updatedAt := some now } :: post,
         ⟨400, false, some "Invalid signature"⟩)) ∧
    (∀ (secret : String) (o p s : String) (pre post : List OrderC) (ord : OrderC),
      (∀ r ∈ pre, r.orderId ≠ some o) → ord.orderId = some o →
      expectedSignature secret o p ≠ s →
      verifyPaymentC secret (pre ++ ord :: post) ⟨some o, some p, some s⟩ =
        (pre ++ { ord with status := "Failed" } :: post,
         ⟨400, false, some "Invalid signature"⟩)) := by
  constructor
  · intro secret now o p s pre post ord hpre hord ho hp hs hsig
    rw [verifyPaymentB_eq secret now _ o p s ho hp hs, if_neg hsig]
    simp only [Prod.mk.injEq, and_true]
    exact updateFirst_split _ _ pre post ord
      (fun y hy => by simp [hpre y hy]) (by simp [hord])
  · intro secret o p s pre post ord hpre hord hsig
    rw [verifyPaymentC_eq secret _ o p s, if_neg hsig]
    simp only [Prod.mk.injEq, and_true]
    exact updateFirst_split _ _ pre post ord
      (fun y hy => by simp [hpre y hy]) (by simp [hord])

/-- Witness for the amended C3: a mismatching signature against variant B
flips the stored order to `"Failed"` with HTTP 400. -/
theorem C3_witness :
    verifyPaymentB "s3cr3t" 7 [sampleOrderB]
        ⟨some "order_ABC", some "pay_XYZ", some "deadbeef"⟩ =
      ([{ sampleOrderB with status := "Failed", updatedAt := some 7 }],
       ⟨400, false, some "Invalid signature"⟩) :=
  C3_amended_verify_mismatch_marks_failed.1 "s3cr3t" 7 "order_ABC" "pay_XYZ" "deadbeef"
    [] [] sampleOrderB (by simp) rfl (by decide) (by decide) (by decide) (by decide)

/-! ## Claim C4 -/

/-- **C4 counterexample.** `"Paid"` is not terminal: re-verifying the same
gateway order id with a wrong signature moves an already-`"Paid"` variant-B
record to `"Failed"`. -/
theorem C4_counterexample :
    paidOrderB.status = "Paid" ∧
    (verifyPaymentB "s3cr3t" 9 [paidOrderB]
        ⟨some "order_ABC", some "pay_2", some "deadbeef"⟩).1 =
      [{ paidOrderB with status := "Failed", updatedAt := some 9 }] :=
  ⟨rfl, by rfl⟩

/-- **C4 amended.** Paid and Failed are not terminal: a later verify-payment
call for the same gateway order identifier overwrites the matched record's
status with the outcome of its own signature check, whatever the current
status — a mismatch moves a Paid record to Failed, a match moves a Failed
record to Paid. -/
theorem C4_amended_status_not_terminal (secret : String) (now : Nat) (o p s : String)
    (pre post : List OrderB) (ord : OrderB)
    (hpre : ∀ r ∈ pre, r.orderId ≠ some o) (hord : ord.orderId = some o)
    (ho : o ≠ "") (hp : p ≠ "") (hs : s ≠ "") :
    (verifyPaymentB secret now (pre ++ ord :: post) ⟨some o, some p, some s⟩).1 =
      if expectedSignature secret o p = s then
        pre ++ { ord with paymentId := some p, status := "Paid",
                          updatedAt := some now } :: post
      else
        pre ++ { ord with status := "Failed", updatedAt := some now } :: post := by
  rw [verifyPaymentB_eq secret now _ o p s ho hp hs]
  by_cases hsig : expectedSignature secret o p = s
  · rw [if_pos hsig, if_pos hsig]
    exact updateFirst_split _ _ pre post ord
      (fun y hy => by simp [hpre y hy]) (by simp [hord])
  · rw [if_neg hsig, if_neg hsig]
    exact updateFirst_split _ _ pre post ord
      (fun y hy => by simp [hpre y hy]) (by simp [hord])

/-- Witness for the amended C4: a valid re-verification moves an
already-`"Failed"` record back to `"Paid"`. -/
theorem C4_witness :
    (verifyPaymentB "s3cr3t" 9 [failedOrderB]
        ⟨some "order_ABC", some "pay_XYZ", some sigABC⟩).1 =
      [{ failedOrderB with
          paymentId := some "pay_XYZ", status := "Paid", updatedAt := some 9 }] := by
  have h := C4_amended_status_not_terminal "s3cr3t" 9 "order_ABC" "pay_XYZ" sigABC
    [] [] failedOrderB (by simp) rfl (by decide) (by decide) (by decide)
  simp only [List.nil_append] at h
  rw [h]
  exact if_pos (by rfl)

/-! ## Claim C7 -/

/-- **C7 counterexample.** The claim is false for the `/api/orders/verify`
handler (variant A): with the `paymentId` field absent it does **not** reject;
it recomputes the signature over the JS-coerced string `"undefined"` and, when
the supplied signature matches that coerced recomputation, even marks the
order `"Paid"` and answers `success:true`. -/
theorem C7_counterexample :
    verifyPaymentA "s3cr3t" 7 [sampleOrderA]
        ⟨some "order_ABC", none, some (expectedSignature "s3cr3t" "order_ABC" "undefined")⟩ =
      ([{ sampleOrderA with
            razorpay_payment_id := none,
            razorpay_signature := some (expectedSignature "s3cr3t" "order_ABC" "undefined"),
            status := "Paid", updatedAt := 7 }],
       ⟨200, true, none⟩) := by
  rfl

/-- **C7 amended.** Only the authenticated `/verify-payment` handler (variant
B) rejects a request with a missing field (HTTP 400, no recomputation, store
untouched); the `/api/orders/verify` handler (variant A) and the `part_000`
`/verify-payment` handler (variant C) perform no such check and compare the
supplied signature against a recomputation in which a missing field is
coerced to the string `"undefined"` — for each of A and C, a request with no
`paymentId` succeeds exactly when the supplied signature equals the
recomputation over `orderId + "|undefined"`, so neither handler rejects. -/
theorem C7_amended_only_B_validates :
    (∀ (secret : String) (now : Nat) (db : List OrderB) (req : VerifyReq),
      req.orderId = none ∨ req.paymentId = none ∨ req.signature = none →
      verifyPaymentB secret now db req =
        (db, ⟨400, false, some "Missing payment verification fields"⟩)) ∧
    (∀ (secret : String) (now : Nat) (db : List OrderA) (o s : String),
      (verifyPaymentA secret now db ⟨some o, none, some s⟩).2.success = true ↔
        expectedSignature secret o "undefined" = s) ∧
    (∀ (secret : String) (db : List OrderC) (o s : String),
      (verifyPaymentC secret db ⟨some o, none, some s⟩).2.success = true ↔
        expectedSignature secret o "undefined" = s) := by
  refine ⟨?_, ?_, ?_⟩
  · intro secret now db req h
    unfold verifyPaymentB
    rcases h with h | h | h <;> simp [jsFalsy, h]
  · intro secret now db o s
    unfold verifyPaymentA
    simp only [jsString]
    by_cases h : expectedSignature secret o "undefined" = s
    · simp [h]
    · simp [h]
  · intro secret db o s
    unfold verifyPaymentC
    simp only [jsString]
    by_cases h : expectedSignature secret o "undefined" = s
    · simp [h]
    · simp [h]

/-- Witness for the amended C7: variant B rejects a request with no
`orderId`. -/
theorem C7_witness :
    verifyPaymentB "s3cr3t" 0 [] ⟨none, some "pay_XYZ", some "deadbeef"⟩ =
      ([], ⟨400, false, some "Missing payment verification fields"⟩) :=
  C7_amended_only_B_validates.1 "s3cr3t" 0 []
    ⟨none, some "pay_XYZ", some "deadbeef"⟩ (Or.inl rfl)

/-! ## Generic lemmas about `findFirst` -/

/-- `findFirst` yields `none` when nothing matches. -/
theorem findFirst_nomatch (p : α → Bool) (l : List α) (h : ∀ y ∈ l, p y = false) :
    findFirst p l = none := by
  induction l with
  | nil => rfl
  | cons a l ih =>
      have ha : p a = false := h a (List.mem_cons_self a l)
      simp only [findFirst, ha, Bool.false_eq_true, if_false]
      exact ih fun y hy => h y (List.mem_cons_of_mem a hy)

/-- `findFirst` yields exactly the first matching element. -/
theorem findFirst_split (p : α → Bool) (pre post : List α) (x : α)
    (hpre : ∀ y ∈ pre, p y = false) (hx : p x = true) :
    findFirst p (pre ++ x :: post) = some x := by
  induction pre with
  | nil => simp [findFirst, hx]
  | cons a l ih =>
      have ha : p a = false := hpre a (List.mem_cons_self a l)
      simp only [List.cons_append, findFirst, ha, Bool.false_eq_true, if_false]
      exact ih fun y hy => hpre y (List.mem_cons_of_mem a hy)

/-! ## Claim C5 -/

/-- **C5 counterexample.** The claim is false for the `part_000`
`/create-order` handler: with the `customer` field absent it still calls the
gateway, persists an order document, and responds 200. -/
theorem C5_counterexample :
    (createOrderC 5 gwOk ⟨some 500, some "INR", some [[("name", "saree")]], none⟩).gatewayCall =
      some ⟨some ((500 : ℚ) * 100), some "INR", "receipt_5"⟩ ∧
    (createOrderC 5 gwOk ⟨some 500, some "INR", some [[("name", "saree")]], none⟩).persisted.isSome
      = true ∧
    (createOrderC 5 gwOk ⟨some 500, some "INR", some [[("name", "saree")]], none⟩).response.status
      = 200 := by
  refine ⟨rfl, rfl, rfl⟩

/-- **C5 amended.** The `/api/orders/create` handler (variant A) and the
authenticated `/create-order` handler (variant B) reject a create request
missing its line items, summary/amount, or customer with HTTP 400 before any
gateway call — no gateway call is attempted and no record is persisted; the
`part_000` `/create-order` handler (refuted above) performs no validation. -/
theorem C5_amended_validated_creates_reject_before_gateway :
    (∀ (keyId dbId : String) (now : Nat) (gw : GwOptions → Except GwErr GwOrder)
       (req : CreateReqA),
      req.cart = none ∨ req.summary = none ∨ req.customer = none →
      createOrderA keyId dbId now gw req =
        { gatewayCall := none, persisted := none,
          response := ⟨400, .err "Invalid payload"⟩ }) ∧
    (∀ (keyId userId : String) (now : Nat) (gw : GwOptions → Except GwErr GwOrder)
       (req : CreateReq),
      req.amount = none ∨ req.products = none ∨ req.customer = none →
      createOrderB keyId userId now gw req =
        { gatewayCall := none, persisted := none,
          response := ⟨400, .err "Missing required fields" none⟩ }) := by
  constructor
  · rintro keyId dbId now gw ⟨cart, sm, cust⟩ h
    rcases h with h | h | h <;> subst h
    · rfl
    · cases cart <;> rfl
    · cases cart <;> cases sm <;> rfl
  · rintro keyId userId now gw ⟨am, cur, ps, cust⟩ h
    rcases h with h | h | h <;> subst h
    · rfl
    · cases am <;> rfl
    · cases am <;> cases ps <;> rfl

/-- Witness for the amended C5: variant B rejects a request with no customer,
calling no gateway and persisting nothing. -/
theorem C5_witness :
    createOrderB "rzp_key" "u1" 5 gwOk ⟨some 500, none, some [[("name", "saree")]], none⟩ =
      { gatewayCall := none, persisted := none,
        response := ⟨400, .err "Missing required fields" none⟩ } :=
  C5_amended_validated_creates_reject_before_gateway.2 "rzp_key" "u1" 5 gwOk
    ⟨some 500, none, some [[("name", "saree")]], none⟩ (Or.inr (Or.inr rfl))

/-! ## Claim C6 -/

/-- **C6 counterexample.** The claim is false for the `part_000`
`/create-order` handler: it sends `amount * 100` with **no** rounding — with
amount `1/200` (the JS number `0.005`) the gateway receives `1/2`, not
`Math.round(0.005 · 100) = 1` — and it passes the currency through with no
`"INR"` default. -/
theorem C6_counterexample :
    (createOrderC 5 gwOk ⟨some (1 / 200 : ℚ), none, some [], some []⟩).gatewayCall =
      some ⟨some ((1 / 200 : ℚ) * 100), none, "receipt_5"⟩ ∧
    (1 / 200 : ℚ) * 100 = 1 / 2 ∧
    jsRound ((1 / 200 : ℚ) * 100) = 1 ∧ ((1 / 2 : ℚ) ≠ 1) ∧
    (none : Option String) ≠ some "INR" := by
  exact ⟨rfl, by norm_num, by norm_num [jsRound], by norm_num, by simp⟩

/-- **C6 amended.** The gateway amount is `Math.round(amount · 100)` for the
authenticated `/create-order` handler (with `currency || "INR"` as default)
and `Math.round(summary.grand · 100)` with hard-coded `"INR"` for
`/api/orders/create`; the `part_000` handler (refuted above) sends
`amount · 100` unrounded and no currency default. -/
theorem C6_amended_paise_rounding_and_inr_default :
    (∀ (keyId userId : String) (now : Nat) (gw : GwOptions → Except GwErr GwOrder)
       (a : ℚ) (cur : Option String) (ps : List JsObj) (cust : JsObj),
      a ≠ 0 →
      (createOrderB keyId userId now gw ⟨some a, cur, some ps, some cust⟩).gatewayCall =
        some ⟨some (jsRound (a * 100)), some (jsOrElse cur "INR"),
              "receipt_" ++ toString now⟩) ∧
    (∀ (keyId dbId : String) (now : Nat) (gw : GwOptions → Except GwErr GwOrder)
       (cart : List JsObj) (sm : SummaryA) (cust : JsObj),
      (createOrderA keyId dbId now gw ⟨some cart, some sm, some cust⟩).gatewayCall =
        some ⟨some (jsRound (sm.grand * 100)), some "INR", "ekta_" ++ toString now⟩) := by
  constructor
  · intro keyId userId now gw a cur ps cust ha
    rcases hgw : gw ⟨some (jsRound (a * 100)), some (jsOrElse cur "INR"),
                     "receipt_" ++ toString now⟩ with e | o <;>
      simp [createOrderB, ha, hgw]
  · intro keyId dbId now gw cart sm cust
    rcases hgw : gw ⟨some (jsRound (sm.grand * 100)), some "INR",
                     "ekta_" ++ toString now⟩ with e | o <;>
      simp [createOrderA, hgw]

/-- Witness for the amended C6: the spec's scenario — amount `499.99` yields
the integer `49999` at the gateway, and an unspecified currency defaults to
`"INR"`. -/
theorem C6_witness :
    (createOrderB "rzp_key" "u1" 5 gwOk ⟨some (49999 / 100 : ℚ), none, some [], some []⟩).gatewayCall
      = some ⟨some (jsRound ((49999 / 100 : ℚ) * 100)), some (jsOrElse none "INR"),
              "receipt_" ++ toString 5⟩ ∧
    jsRound ((49999 / 100 : ℚ) * 100) = 49999 ∧ jsOrElse none "INR" = "INR" :=
  ⟨C6_amended_paise_rounding_and_inr_default.1 "rzp_key" "u1" 5 gwOk
     (49999 / 100) none [] [] (by norm_num),
   by norm_num [jsRound], rfl⟩

/-! ## Claim C8 -/

/-- **C8.** On a successful authentication: when no User Record carries the
provider subject id, exactly one fresh record is appended (nothing else
changes); when one exists, only its `lastLogin` field is updated and no
record is inserted.  Either way the response is `{success:true, token, user}`
where `user` carries exactly the public fields `id`, `name`, `email`,
`picture` — by construction of `PublicUser` and `AuthResp`, neither the
provider subject id nor the signing secret is among the response fields. -/
theorem C8_auth_google_upsert :
    (∀ (env : Option String) (now : Nat) (newId : String) (db : List UserRec)
       (payload : GooglePayload),
      (∀ u ∈ db, u.googleId ≠ payload.sub) →
      authGoogle env now newId db payload =
        (db ++ [{ id := newId, googleId := payload.sub, email := payload.email,
                  name := payload.name, picture := payload.picture,
                  createdAt := now, lastLogin := some now }],
         { success := true,
           token := generateToken env
             { id := newId, googleId := payload.sub, email := payload.email,
               name := payload.name, picture := payload.picture,
               createdAt := now, lastLogin := some now },
           user := ⟨newId, payload.name, payload.email, payload.picture⟩ })) ∧
    (∀ (env : Option String) (now : Nat) (newId : String) (pre post : List UserRec)
       (u0 : UserRec) (payload : GooglePayload),
      (∀ u ∈ pre, u.googleId ≠ payload.sub) → u0.googleId = payload.sub →
      authGoogle env now newId (pre ++ u0 :: post) payload =
        (pre ++ { u0 with lastLogin := some now } :: post,
         { success := true,
           token := generateToken env { u0 with lastLogin := some now },
           user := ⟨u0.id, u0.name, u0.email, u0.picture⟩ })) := by
  constructor
  · intro env now newId db payload hdb
    unfold authGoogle
    rw [findFirst_nomatch _ _ fun y hy => by simp [hdb y hy]]
  · intro env now newId pre post u0 payload hpre hu0
    unfold authGoogle
    rw [findFirst_split _ pre post u0 (fun y hy => by simp [hpre y hy]) (by simp [hu0])]
    simp only [Prod.mk.injEq, and_true]
    exact updateFirst_split _ _ pre post u0 (fun y hy => by simp [hpre y hy]) (by simp [hu0])

/-- Witness for C8: a first login with a fresh subject id appends exactly one
User Record; a second login with `sampleUser`'s subject id only bumps
`lastLogin`. -/
theorem C8_witness :
    authGoogle none 2 "64b2" [sampleUser] ⟨"g-sub-2", "ravi@example.com", some "Ravi", none⟩ =
      ([sampleUser,
        { id := "64b2", googleId := "g-sub-2", email := "ravi@example.com",
          name := some "Ravi", picture := none, createdAt := 2, lastLogin := some 2 }],
       { success := true,
         token := ⟨⟨"64b2", "ravi@example.com"⟩, "your-jwt-secret-key", "7d"⟩,
         user := ⟨"64b2", some "Ravi", "ravi@example.com", none⟩ }) ∧
    authGoogle none 3 "64c3" [sampleUser] ⟨"g-sub-1", "asha@example.com", some "Asha", none⟩ =
      ([{ sampleUser with lastLogin := some 3 }],
       { success := true,
         token := ⟨⟨"64a1", "asha@example.com"⟩, "your-jwt-secret-key", "7d"⟩,
         user := ⟨"64a1", some "Asha", "asha@example.com", some "pic.png"⟩ }) :=
  ⟨C8_auth_google_upsert.1 none 2 "64b2" [sampleUser]
     ⟨"g-sub-2", "ravi@example.com", some "Ravi", none⟩ (by decide),
   C8_auth_google_upsert.2 none 3 "64c3" [] [] sampleUser
     ⟨"g-sub-1", "asha@example.com", some "Asha", none⟩ (by simp) rfl⟩

/-! ## Claim C9 -/

/-- **C9 counterexample.** The claim is false for the `part_000`
`/create-order` handler: on a gateway failure it answers
`res.status(500).send("Error creating order")`, a plain-text body, not
JSON. -/
theorem C9_counterexample :
    (createOrderC 5 gwFail ⟨some 500, some "INR", some [], some []⟩).response =
      ⟨500, .text "Error creating order"⟩ ∧
    (createOrderC 5 gwFail ⟨some 500, some "INR", some [], some []⟩).response.body.isJson
      = false :=
  ⟨rfl, rfl⟩

/-- **C9 amended.** Error responses are JSON of shape `{success:false,
message}` / `{error, …}` except that (a) the `part_000` catch handlers return
plain-text bodies, and (b) the authenticated variant's create-order catch
handler exposes internal error detail: its JSON `message` field carries the
underlying SDK error description or exception message verbatim. -/
theorem C9_amended_error_responses :
    (∀ (keyId userId : String) (now : Nat) (e : GwErr) (a : ℚ) (cur : Option String)
       (ps : List JsObj) (cust : JsObj),
      a ≠ 0 →
      (createOrderB keyId userId now (fun _ => .error e)
          ⟨some a, cur, some ps, some cust⟩).response =
        ⟨500, .err "Error creating order" (some (gwErrMessage e))⟩) ∧
    (∀ (now : Nat) (e : GwErr) (req : CreateReq),
      (createOrderC now (fun _ => .error e) req).response =
        ⟨500, .text "Error creating order"⟩) := by
  constructor
  · intro keyId userId now e a cur ps cust ha
    simp [createOrderB, ha]
  · intro now e req
    rfl

/-- Witness for the amended C9: a concrete connection failure's message string
appears verbatim in the authenticated create-order error response. -/
theorem C9_witness :
    (createOrderB "rzp_key" "u1" 5
        (fun _ => .error ⟨none, "connect ECONNREFUSED 127.0.0.1:443"⟩)
        ⟨some 500, some "INR", some [], some []⟩).response =
      ⟨500, .err "Error creating order" (some "connect ECONNREFUSED 127.0.0.1:443")⟩ :=
  C9_amended_error_responses.1 "rzp_key" "u1" 5
    ⟨none, "connect ECONNREFUSED 127.0.0.1:443"⟩ 500 (some "INR") [] [] (by norm_num)

/-! ## Claim C10 -/

/-- **C10.** With `JWT_SECRET` unset in the environment, both token issuance
(`generateToken`) and token verification (`authenticateToken`) use the fixed
literal `"your-jwt-secret-key"`; issuance and verification always use the same
derived secret, so a token issued under an environment validates in any
process sharing that environment. -/
theorem C10_jwt_secret_fallback_consistent :
    JWT_SECRET none = "your-jwt-secret-key" ∧
    (∀ u : UserRec, (generateToken none u).signedWith = "your-jwt-secret-key") ∧
    (∀ (env : Option String) (u : UserRec),
      authenticateToken env (some (generateToken env u)) = .allow ⟨u.id, u.email⟩) := by
  refine ⟨rfl, fun u => rfl, fun env u => ?_⟩
  simp [authenticateToken, generateToken, jwtSign, jwtVerify]

end Shringara
